import Mathlib

/-!
Shallow embedding of the `Aria` class (accessibility state helpers over DOM
elements).  A DOM element is modelled by its tag name, its attribute list,
its native boolean flags (disabled / checked / selected) and its rendered
text.  A document is a list of elements.  JavaScript functions that can
throw a TypeError (a property access on `null`/`undefined`) are modelled in
`Except Unit`; a possibly-null element reference is `Option Elem`.
The single process-wide cell `this.href` is passed explicitly.
-/

namespace Aria

/-- A DOM element: tag name, attributes (association list, first binding
wins on lookup), the three native boolean flags the module reads/writes,
and the rendered text (`innerText`). -/
structure Elem where
  tagName : String
  attrs : List (String × String)
  disabled : Bool
  checked : Bool
  selected : Bool
  innerText : String
deriving DecidableEq, Repr

/-- Models `getAttribute`: the value of the first binding of the attribute, or
`none` when the attribute is absent (JS returns `null`). -/
def getAttribute (e : Elem) (n : String) : Option String :=
  (e.attrs.find? (fun p => p.1 == n)).map (fun p => p.2)

/-- Models `hasAttribute`. -/
def hasAttribute (e : Elem) (n : String) : Bool :=
  (getAttribute e n).isSome

/-- Replace the first binding of `n`, or append a fresh one. -/
def setAttrList : List (String × String) → String → String → List (String × String)
  | [], n, v => [(n, v)]
  | (k, w) :: rest, n, v =>
    if k == n then (n, v) :: rest else (k, w) :: setAttrList rest n v

/-- Models `setAttribute`. -/
def setAttribute (e : Elem) (n v : String) : Elem :=
  { e with attrs := setAttrList e.attrs n v }

/-- Models `removeAttribute`. -/
def removeAttribute (e : Elem) (n : String) : Elem :=
  { e with attrs := e.attrs.filter (fun p => p.1 != n) }

/-- JS truthiness of a `getAttribute` result: `null` and the empty string
are falsy, every other string is truthy. -/
def truthyAttr : Option String → Bool
  | none => false
  | some s => s != ""

/-- JS stringification of a boolean passed to `setAttribute`. -/
def boolStr (b : Bool) : String :=
  if b then "true" else "false"

/-- The field read by `t?.tagName` on a possibly-null reference. -/
def optTagName (t : Option Elem) : Option String :=
  t.map Elem.tagName

/-- The value of `t?.getAttribute(n)` on a possibly-null reference
(`undefined` and `null` both modelled as `none`). -/
def optGetAttribute (t : Option Elem) (n : String) : Option String :=
  t.bind (fun e => getAttribute e n)

/-- Tag alternatives of the `focusableElements` selector (uppercased, as tag
matching in HTML documents is case-insensitive). -/
def focusableTagNames : List String :=
  ["AUDIO", "BUTTON", "CANVAS", "DETAILS", "IFRAME", "INPUT", "SELECT",
   "SUMMARY", "TEXTAREA", "VIDEO", "PROGRESS"]

/-- Whether an element matches the `focusableElements` structural selector:
one of the listed tags, or `[href]`, `[accesskey]`, `[contenteditable]`,
or a `tabindex` attribute whose value is not exactly `-1`. -/
def matchesFocusableSelector (e : Elem) : Bool :=
  focusableTagNames.any (fun tag => tag == e.tagName) ||
  hasAttribute e "href" ||
  hasAttribute e "accesskey" ||
  hasAttribute e "contenteditable" ||
  (hasAttribute e "tabindex" && getAttribute e "tabindex" != some "-1")

/-- Source list `disabledRoles`. -/
def disabledRoles : List String :=
  ["button", "group", "input", "link", "menuitem", "menuitemradio",
   "menuitemcheckbox", "tab", "combobox", "listbox", "radio", "radiogroup",
   "checkbox", "select", "switch", "tablist", "textbox", "toolbar"]

/-- Source list `disabledTags`. -/
def disabledTags : List String :=
  ["BUTTON", "FIELDSET", "OPTGROUP", "OPTION", "SELECT", "TEXTAREA",
   "INPUT", "PROGRESS", "A"]

/-- Source list `selectedRoles`. -/
def selectedRoles : List String :=
  ["gridcell", "option", "row", "tab"]

/-- Source list `selectedTags`. -/
def selectedTags : List String :=
  ["OPTION"]

/-- Source list `checkedRoles`. -/
def checkedRoles : List String :=
  ["checkbox", "menuitemcheckbox", "menuitemradio", "option", "radio", "switch"]

/-- Source list `checkedTags`. -/
def checkedTags : List String :=
  ["INPUT"]

/-- Source list `expandedRoles`. -/
def expandedRoles : List String :=
  ["application", "button", "checkbox", "combobox", "gridcell", "link",
   "listbox", "menuitem", "row", "rowheader", "tab", "treeitem"]

/-- Source list `expandedTags`. -/
def expandedTags : List String :=
  ["BUTTON"]

/-- Models `canDisable`: uses optional chaining, hence total on a null node. -/
def canDisable (t : Option Elem) : Bool :=
  disabledTags.any (fun tag => some tag == optTagName t) ||
  disabledRoles.any (fun role => some role == optGetAttribute t "role")

/-- Models `canSelect`. -/
def canSelect (t : Option Elem) : Bool :=
  selectedTags.any (fun tag => some tag == optTagName t) ||
  selectedRoles.any (fun role => some role == optGetAttribute t "role")

/-- Models `canCheck`. -/
def canCheck (t : Option Elem) : Bool :=
  checkedTags.any (fun tag => some tag == optTagName t) ||
  checkedRoles.any (fun role => some role == optGetAttribute t "role")

/-- Models `canExpand`. -/
def canExpand (t : Option Elem) : Bool :=
  expandedTags.any (fun tag => some tag == optTagName t) ||
  expandedRoles.any (fun role => some role == optGetAttribute t "role")

/-- Models `isMultiselectable`: reads `t.getAttribute` without optional chaining,
so a null node raises a TypeError (modelled as `Except.error`). -/
def isMultiselectable (t : Option Elem) : Except Unit Bool :=
  match t with
  | none => Except.error ()
  | some e => Except.ok (getAttribute e "aria-multiselectable" == some "true")

/-- Models `isExpanded`. -/
def isExpanded (t : Option Elem) : Except Unit Bool :=
  if !(canExpand t) then Except.ok false
  else
    match t with
    | none => Except.error ()
    | some e => Except.ok (getAttribute e "aria-expanded" == some "true")

/-- Models `isChecked`: the aria attribute wins when truthy, else native flag. -/
def isChecked (t : Option Elem) : Except Unit Bool :=
  if !(canCheck t) then Except.ok false
  else
    match t with
    | none => Except.error ()
    | some e =>
      if truthyAttr (getAttribute e "aria-checked") then
        Except.ok (getAttribute e "aria-checked" == some "true")
      else
        Except.ok e.checked

/-- Models `isMixed`. -/
def isMixed (t : Option Elem) : Except Unit Bool :=
  if !(canCheck t) then Except.ok false
  else
    match t with
    | none => Except.error ()
    | some e => Except.ok (getAttribute e "aria-checked" == some "mixed")

/-- Models `isSelected`. -/
def isSelected (t : Option Elem) : Except Unit Bool :=
  if !(canSelect t) then Except.ok false
  else
    match t with
    | none => Except.error ()
    | some e =>
      if truthyAttr (getAttribute e "aria-selected") then
        Except.ok (getAttribute e "aria-selected" == some "true")
      else
        Except.ok e.selected

/-- Models `isCheckedOrSelected`: short-circuiting disjunction. -/
def isCheckedOrSelected (t : Option Elem) : Except Unit Bool := do
  let c ← isChecked t
  if c then return true else isSelected t

/-- Models `isDisabled`. -/
def isDisabled (t : Option Elem) : Except Unit Bool :=
  if !(canDisable t) then Except.ok false
  else
    match t with
    | none => Except.error ()
    | some e =>
      if truthyAttr (getAttribute e "aria-disabled") then
        Except.ok (getAttribute e "aria-disabled" == some "true")
      else
        Except.ok e.disabled

/-- Splitting loop for the space character, mirroring the JS
`String.prototype.split` behaviour: the empty string yields a single
empty field, and adjacent separators yield empty fields. -/
def splitSpaceAux : List Char → List Char → List String
  | [], acc => [String.mk acc.reverse]
  | c :: rest, acc =>
    if c = ' ' then String.mk acc.reverse :: splitSpaceAux rest []
    else splitSpaceAux rest (c :: acc)

/-- JS `s.split(a single-space separator)`. -/
def jsSplitSpace (s : String) : List String :=
  splitSpaceAux s.data []

/-- Models `getLabelledby`: split the attribute on single spaces, or `none` when
it is absent (optional chaining short-circuit). -/
def getLabelledby (t : Elem) : Option (List String) :=
  (getAttribute t "aria-labelledby").map jsSplitSpace

/-- Models `getControls`: split the attribute on single spaces, or `none` when it
is absent. -/
def getControls (t : Elem) : Option (List String) :=
  (getAttribute t "aria-controls").map jsSplitSpace

/-- A document: the elements of the page in document order. -/
def Doc := List Elem

/-- Models `document.getElementById`: the first element whose `id` attribute is
the given (nonempty) string. -/
def getElementById (doc : List Elem) (i : String) : Option Elem :=
  if i == "" then none
  else doc.find? (fun e => getAttribute e "id" == some i)

/-- The reflected `id` property: the attribute value, or the empty string
when the attribute is absent. -/
def idProp (t : Elem) : String :=
  (getAttribute t "id").getD ""

/-- JS `String.prototype.includes`: substring containment. -/
def listIncludes (needle : List Char) : List Char → Bool
  | [] => needle.isEmpty
  | c :: rest => needle.isPrefixOf (c :: rest) || listIncludes needle rest

/-- JS `s.includes(sub)`. -/
def strIncludes (s sub : String) : Bool :=
  listIncludes sub.data s.data

/-- Models `getControllingElements`: `none` models the `return null` after the
warning when the element lacks an `id` attribute; otherwise the elements
carrying `[aria-controls]` whose attribute value contains the id of `t`
as a substring (JS `includes`). -/
def getControllingElements (doc : List Elem) (t : Elem) : Option (List Elem) :=
  if !(hasAttribute t "id") then none
  else
    let allControllers := doc.filter (fun e => hasAttribute e "aria-controls")
    some (allControllers.filter
      (fun item => strIncludes ((getAttribute item "aria-controls").getD "") (idProp t)))

/-- Models `getLabelElement`: the first `label` element whose `for` attribute
equals the id of `t`. -/
def getLabelElement (doc : List Elem) (t : Elem) : Option Elem :=
  doc.find? (fun e => e.tagName == "LABEL" && getAttribute e "for" == some (idProp t))

/-- The loop of `getLabelText` over the `aria-labelledby` ids: resolve
each id and push its `innerText`, throwing a TypeError (modelled as
`Except.error`) at the first id that resolves to no element. -/
def collectLabels (doc : List Elem) : List String → Except Unit (List String)
  | [] => Except.ok []
  | i :: rest =>
    match getElementById doc i with
    | none => Except.error ()
    | some el => (collectLabels doc rest).map (fun ls => el.innerText :: ls)

/-- Models `getLabelText`: aria-labelledby first (resolving every listed id and
reading `innerText` of each — a TypeError, modelled as `Except.error`,
when an id resolves to no element), then a truthy aria-label, then an
associated label element, else the sentinel string. -/
def getLabelText (doc : List Elem) (t : Elem) : Except Unit String :=
  match getLabelledby t with
  | some ids =>
    (collectLabels doc ids).map (fun labels => String.intercalate " " labels)
  | none =>
    if truthyAttr (getAttribute t "aria-label") then
      Except.ok ((getAttribute t "aria-label").getD "")
    else
      match getLabelElement doc t with
      | some lbl => Except.ok lbl.innerText
      | none => Except.ok "NO LABEL AVAILABLE"

/-- Models `handleDisableHref`: first overwrite the shared `this.href` cell with
the current `href` attribute, then on disable strip `href` and set
`role="link"`; on enable restore `href` from the cell when it is non-null
and remove `role`. Returns the updated element and cell. -/
def handleDisableHref (a : Elem) (doDisable : Bool) (cell : Option String) :
    Elem × Option String :=
  let _incoming := cell
  let cell := getAttribute a "href"
  if doDisable then
    (setAttribute (removeAttribute a "href") "role" "link", cell)
  else
    let a :=
      match cell with
      | some h => setAttribute a "href" h
      | none => a
    (removeAttribute a "role", cell)

/-- Models `disable`: capability guard, native-tag branch (with the anchor `href`
side effect), then the role branch re-reading the possibly updated role. -/
def disable (t : Elem) (doDisable : Bool) (cell : Option String) :
    Elem × Option String :=
  if !(canDisable (some t)) then (t, cell)
  else
    let (t, cell) :=
      if disabledTags.any (fun tag => tag == t.tagName) then
        let t := { t with disabled := doDisable }
        if t.tagName == "A" && hasAttribute t "href" then
          handleDisableHref t doDisable cell
        else (t, cell)
      else (t, cell)
    if disabledRoles.any (fun role => some role == getAttribute t "role") then
      (setAttribute t "aria-disabled" (boolStr doDisable), cell)
    else (t, cell)

/-- Models `select`. -/
def select (t : Elem) (doSelect : Bool) : Elem :=
  if !(canSelect (some t)) then t
  else
    let t :=
      if selectedTags.any (fun tag => tag == t.tagName) then
        { t with selected := doSelect }
      else t
    if selectedRoles.any (fun role => some role == getAttribute t "role") then
      setAttribute t "aria-selected" (boolStr doSelect)
    else t

/-- The role branch of `check`. -/
def checkRoleBranch (t : Elem) (doCheck : Bool) : Elem :=
  if checkedRoles.any (fun role => some role == getAttribute t "role") then
    setAttribute t "aria-checked" (boolStr doCheck)
  else t

/-- Models `check`: inside the native-tag branch, a `type` attribute that is
neither `radio` nor `checkbox` makes the whole method return early, so
the role branch below is skipped as well. -/
def check (t : Elem) (doCheck : Bool) : Elem :=
  if !(canCheck (some t)) then t
  else
    if checkedTags.any (fun tag => tag == t.tagName) then
      if getAttribute t "type" != some "radio" &&
         getAttribute t "type" != some "checkbox" then t
      else
        checkRoleBranch { t with checked := doCheck } doCheck
    else
      checkRoleBranch t doCheck

/-- Models `expand`: after the capability guard the code reads
`this.getControls(t).length`; when the `aria-controls` attribute is absent
`getControls` yields `undefined` and the length access throws (modelled as
`Except.error`). Otherwise the warning condition `length < 1` is recorded
in the returned Boolean and `aria-expanded` is set. -/
def expand (t : Elem) (doExpand : Bool) : Except Unit (Elem × Bool) :=
  if !(canExpand (some t)) then Except.ok (t, false)
  else
    match getControls t with
    | none => Except.error ()
    | some ids =>
      Except.ok (setAttribute t "aria-expanded" (boolStr doExpand),
        decide (ids.length < 1))

/-- Models `makeUntabbable`: the container is modelled by the document-order list
of its descendants; `querySelectorAll(this.focusableElements)` selects the
ones matching the structural selector, and each gets its `tabindex`
attribute set. -/
def makeUntabbable (c : List Elem) (isUntabbable : Bool) : List Elem :=
  c.map (fun el =>
    if matchesFocusableSelector el then
      setAttribute el "tabindex" (if isUntabbable then "-1" else "0")
    else el)

/-- Complement of the tabindex clause of the structural selector: the
clauses whose truth cannot be changed by setting `tabindex`. -/
def matchesNonTabindexSelector (e : Elem) : Bool :=
  focusableTagNames.any (fun tag => tag == e.tagName) ||
  hasAttribute e "href" ||
  hasAttribute e "accesskey" ||
  hasAttribute e "contenteditable"

/-- An anchor element with a navigation target. -/
def anchorHome : Elem := ⟨"A", [("href", "/home")], false, false, false, ""⟩

/-- A text input that also carries a checkable role. -/
def chkInput : Elem :=
  ⟨"INPUT", [("type", "text"), ("role", "switch")], false, false, false, ""⟩

/-- A button with no `aria-controls` attribute. -/
def bareButton : Elem := ⟨"BUTTON", [], false, false, false, ""⟩

/-- An element controlling `foobar`. -/
def ctrlFoobar : Elem :=
  ⟨"BUTTON", [("aria-controls", "foobar")], false, false, false, ""⟩

/-- An element whose id `foo` is a proper substring of `foobar`. -/
def tgtFoo : Elem := ⟨"DIV", [("id", "foo")], false, false, false, ""⟩

/-- A div whose only match in the structural selector is its explicit
`tabindex` attribute. -/
def divTab5 : Elem := ⟨"DIV", [("tabindex", "5")], false, false, false, ""⟩

/-- A div supporting none of the four axes. -/
def divPlain : Elem := ⟨"DIV", [], false, false, false, ""⟩

/-- A checkable input whose `aria-checked` attribute is the empty string
while its native checked flag is set. -/
def emptyAriaChecked : Elem :=
  ⟨"INPUT", [("aria-checked", "")], false, true, false, ""⟩

/-- A checkable input with `aria-checked="false"` but native checked flag
set. -/
def ariaFalseNativeTrue : Elem :=
  ⟨"INPUT", [("aria-checked", "false")], false, true, false, ""⟩

/-- An option element (checkable via role, selectable and disableable via
tag) whose three aria attributes are all the empty string while all three
native flags are set. -/
def emptyAriaOption : Elem :=
  ⟨"OPTION",
   [("role", "option"), ("aria-checked", ""), ("aria-selected", ""),
    ("aria-disabled", "")], true, true, true, ""⟩

/-- An element whose `aria-labelledby` names an id that resolves to no
element. -/
def ghostLabelled : Elem :=
  ⟨"SPAN", [("aria-labelledby", "ghost")], false, false, false, ""⟩

/-! Basic lemmas about the attribute operations. -/

theorem tagName_setAttribute (e : Elem) (n v : String) :
    (setAttribute e n v).tagName = e.tagName := rfl

theorem find?_setAttrList_self (l : List (String × String)) (n v : String) :
    (setAttrList l n v).find? (fun p => p.1 == n) = some (n, v) := by
  induction l with
  | nil => simp [setAttrList]
  | cons p rest ih =>
    obtain ⟨k, w⟩ := p
    by_cases h : k = n
    · subst h
      simp [setAttrList]
    · have hb : (k == n) = false := beq_eq_false_iff_ne.mpr h
      simp only [setAttrList, hb, Bool.false_eq_true, if_false, List.find?]
      exact ih

theorem find?_setAttrList_ne (l : List (String × String)) (n v m : String)
    (h : m ≠ n) :
    (setAttrList l n v).find? (fun p => p.1 == m) = l.find? (fun p => p.1 == m) := by
  have hnm : (n == m) = false := beq_eq_false_iff_ne.mpr (Ne.symm h)
  induction l with
  | nil =>
    simp [setAttrList, List.find?, hnm]
  | cons p rest ih =>
    obtain ⟨k, w⟩ := p
    by_cases hk : k = n
    · subst hk
      have hkm : (k == m) = false := beq_eq_false_iff_ne.mpr (Ne.symm h)
      simp [setAttrList, List.find?, hnm, hkm]
    · have hb : (k == n) = false := beq_eq_false_iff_ne.mpr hk
      simp only [setAttrList, hb, Bool.false_eq_true, if_false, List.find?]
      by_cases hm : k = m
      · simp [hm]
      · have hkm : (k == m) = false := beq_eq_false_iff_ne.mpr hm
        simp only [hkm]
        exact ih

theorem getAttribute_setAttribute_self (e : Elem) (n v : String) :
    getAttribute (setAttribute e n v) n = some v := by
  simp [getAttribute, setAttribute, find?_setAttrList_self]

theorem getAttribute_setAttribute_ne (e : Elem) (n v m : String) (h : m ≠ n) :
    getAttribute (setAttribute e n v) m = getAttribute e m := by
  simp [getAttribute, setAttribute, find?_setAttrList_ne _ _ _ _ h]

theorem hasAttribute_setAttribute_self (e : Elem) (n v : String) :
    hasAttribute (setAttribute e n v) n = true := by
  simp [hasAttribute, getAttribute_setAttribute_self]

theorem hasAttribute_setAttribute_ne (e : Elem) (n v m : String) (h : m ≠ n) :
    hasAttribute (setAttribute e n v) m = hasAttribute e m := by
  simp [hasAttribute, getAttribute_setAttribute_ne _ _ _ _ h]

theorem setAttrList_setAttrList (l : List (String × String)) (n v w : String) :
    setAttrList (setAttrList l n v) n w = setAttrList l n w := by
  induction l with
  | nil => simp [setAttrList]
  | cons p rest ih =>
    obtain ⟨k, u⟩ := p
    by_cases h : k = n
    · subst h
      simp [setAttrList]
    · have hb : (k == n) = false := beq_eq_false_iff_ne.mpr h
      simp only [setAttrList, hb, Bool.false_eq_true, if_false, ih]

theorem setAttribute_setAttribute (e : Elem) (n v w : String) :
    setAttribute (setAttribute e n v) n w = setAttribute e n w := by
  simp [setAttribute, setAttrList_setAttrList]

/-! Theorems for the claims. -/

/-- Claim C1: the claim states that `disable(node, true)` followed by
`disable(node, false)` on an anchor carrying `href` restores the original
`href` value and removes the `role` attribute. The code refutes this: the
enable path reaches `handleDisableHref` only when the node still has an
`href` attribute, which the disable path removed, so the restore branch is
unreachable through `disable`. Evaluating the code at the failing input:
after the round trip the `href` attribute is still absent and the role is
still `link`. -/
theorem disable_enable_does_not_restore_href :
    hasAttribute anchorHome "href" = true ∧
    getAttribute
      ((disable (disable anchorHome true none).1 false
        (disable anchorHome true none).2).1) "href" = none ∧
    getAttribute
      ((disable (disable anchorHome true none).1 false
        (disable anchorHome true none).2).1) "role" = some "link" :=
  ⟨rfl, rfl, rfl⟩

/-- Claim C2, counterexample: `chkInput` is an `INPUT` whose `type` is
`text` and whose role `switch` is in the checkable role set, yet
`check(chkInput, true)` leaves it completely unchanged — in particular
`aria-checked` is never written, because the early `return` in the
native-tag branch also skips the role branch. -/
theorem check_text_input_skips_role_branch :
    chkInput.tagName = "INPUT" ∧
    getAttribute chkInput "type" = some "text" ∧
    getAttribute chkInput "role" = some "switch" ∧
    checkedRoles.contains "switch" = true ∧
    check chkInput true = chkInput ∧
    getAttribute (check chkInput true) "aria-checked" = none :=
  ⟨rfl, rfl, rfl, rfl, rfl, rfl⟩

/-- Claim C2, amended: for an `INPUT` whose `type` attribute is neither
`radio` nor `checkbox`, `check` is a complete no-op — the early return in
the native-tag branch aborts the whole method, so neither the native
checked flag nor the `aria-checked` attribute is written, whatever the
role. -/
theorem check_nonCheckboxInput_is_noop (t : Elem) (v : Bool)
    (ht : t.tagName = "INPUT")
    (h1 : getAttribute t "type" ≠ some "radio")
    (h2 : getAttribute t "type" ≠ some "checkbox") :
    check t v = t := by
  have hc : canCheck (some t) = true := by
    simp [canCheck, checkedTags, optTagName, ht]
  have htag : checkedTags.any (fun tag => tag == t.tagName) = true := by
    simp [checkedTags, ht]
  have hb1 : (getAttribute t "type" != some "radio") = true := by
    simpa using h1
  have hb2 : (getAttribute t "type" != some "checkbox") = true := by
    simpa using h2
  simp [check, hc, htag, hb1, hb2]

/-- Claim C2, witness for the amended theorem at a concrete input. -/
theorem check_nonCheckboxInput_is_noop_witness :
    check chkInput false = chkInput :=
  check_nonCheckboxInput_is_noop chkInput false rfl (by decide) (by decide)

/-- Claim C3: the claim states that `expand` never fails and still sets
`aria-expanded` when the controls-reference list is empty or absent. The
code refutes it at a node with capability but no `aria-controls`
attribute: `getControls` yields `undefined` there and the `.length` access
throws a TypeError before `aria-expanded` is set. -/
theorem expand_missing_controls_throws :
    canExpand (some bareButton) = true ∧
    expand bareButton true = Except.error () :=
  ⟨rfl, rfl⟩

/-- Claim C4, counterexample: the id `foo` of `tgtFoo` is only a proper
substring of the single reference `foobar` carried by `ctrlFoobar` — it is
not a member of the whitespace-separated reference list — yet
`getControllingElements` returns `ctrlFoobar`, because the code tests
substring containment (`includes`) rather than list membership. -/
theorem controllingElements_substring_match :
    getControllingElements [ctrlFoobar, tgtFoo] tgtFoo = some [ctrlFoobar] ∧
    (jsSplitSpace ((getAttribute ctrlFoobar "aria-controls").getD "")).contains
      (idProp tgtFoo) = false :=
  ⟨rfl, rfl⟩

/-- Claim C4, amended: for a node with an id, `getControllingElements`
returns some list whose members are exactly the document elements that
carry an `aria-controls` attribute whose value contains the id of the node
as a substring (JS `includes`), not as a whitespace-separated member. -/
theorem controllingElements_mem_iff (doc : List Elem) (t e : Elem)
    (h : hasAttribute t "id" = true) :
    ∃ l, getControllingElements doc t = some l ∧
      (e ∈ l ↔ e ∈ doc ∧ hasAttribute e "aria-controls" = true ∧
        strIncludes ((getAttribute e "aria-controls").getD "") (idProp t) = true) := by
  refine ⟨(doc.filter (fun x => hasAttribute x "aria-controls")).filter
      (fun item =>
        strIncludes ((getAttribute item "aria-controls").getD "") (idProp t)), ?_, ?_⟩
  · simp [getControllingElements, h]
  · constructor
    · intro hm
      have h1 := List.mem_filter.mp hm
      have h2 := List.mem_filter.mp h1.1
      exact ⟨h2.1, h2.2, h1.2⟩
    · rintro ⟨hd, ha, hs⟩
      exact List.mem_filter.mpr ⟨List.mem_filter.mpr ⟨hd, ha⟩, hs⟩

/-- Claim C4, witness for the amended theorem at a concrete input. -/
theorem controllingElements_mem_iff_witness :
    ∃ l, getControllingElements [ctrlFoobar, tgtFoo] tgtFoo = some l ∧
      (ctrlFoobar ∈ l ↔ ctrlFoobar ∈ [ctrlFoobar, tgtFoo] ∧
        hasAttribute ctrlFoobar "aria-controls" = true ∧
        strIncludes ((getAttribute ctrlFoobar "aria-controls").getD "")
          (idProp tgtFoo) = true) :=
  controllingElements_mem_iff [ctrlFoobar, tgtFoo] tgtFoo ctrlFoobar rfl

/-- Setting `tabindex` to `-1` switches the structural selector to its
non-tabindex clauses: the tag and the `href` / `accesskey` /
`contenteditable` attributes are untouched, while the tabindex clause
becomes false. -/
theorem matchesFocusableSelector_setTabindexNeg (el : Elem) :
    matchesFocusableSelector (setAttribute el "tabindex" "-1") =
      matchesNonTabindexSelector el := by
  unfold matchesFocusableSelector matchesNonTabindexSelector
  rw [tagName_setAttribute,
    hasAttribute_setAttribute_ne _ _ _ _ (by decide),
    hasAttribute_setAttribute_ne _ _ _ _ (by decide),
    hasAttribute_setAttribute_ne _ _ _ _ (by decide),
    hasAttribute_setAttribute_self, getAttribute_setAttribute_self]
  simp

/-- An element failing the whole structural selector also fails its
non-tabindex clauses. -/
theorem nonTabindex_le_focusable (el : Elem)
    (h : matchesFocusableSelector el = false) :
    matchesNonTabindexSelector el = false := by
  unfold matchesFocusableSelector at h
  unfold matchesNonTabindexSelector
  simp only [Bool.or_eq_false_iff] at h ⊢
  exact h.1

/-- One element of the container through the untabbable round trip. -/
theorem untabbable_roundtrip_step (el : Elem) :
    (fun x =>
      if matchesFocusableSelector x then setAttribute x "tabindex" "0" else x)
    ((fun x =>
      if matchesFocusableSelector x then setAttribute x "tabindex" "-1" else x) el) =
    (if matchesNonTabindexSelector el then setAttribute el "tabindex" "0"
     else if matchesFocusableSelector el then setAttribute el "tabindex" "-1"
     else el) := by
  cases hm : matchesFocusableSelector el with
  | false =>
    have hn := nonTabindex_le_focusable el hm
    simp [hm, hn]
  | true =>
    cases hn : matchesNonTabindexSelector el with
    | false =>
      simp [hm, hn, matchesFocusableSelector_setTabindexNeg]
    | true =>
      simp [hm, hn, matchesFocusableSelector_setTabindexNeg,
        setAttribute_setAttribute]

/-- Claim C5, counterexample: `divTab5` matches the structural selector
only through its explicit `tabindex` attribute; after
`makeUntabbable(c, true)` its `tabindex` is `-1`, so the second pass no
longer selects it and `makeUntabbable(c, false)` leaves it at `-1`, not
`0` as the claim requires. -/
theorem makeUntabbable_roundtrip_tabindex_only :
    matchesFocusableSelector divTab5 = true ∧
    (makeUntabbable (makeUntabbable [divTab5] true) false).map
      (fun e => getAttribute e "tabindex") = [some "-1"] :=
  ⟨rfl, rfl⟩

/-- Claim C5, amended: after `makeUntabbable(c, true)` then
`makeUntabbable(c, false)`, an element matching the structural selector
through a non-tabindex clause (tag, `href`, `accesskey` or
`contenteditable`) ends with `tabindex` `0`; an element whose only match
was its explicit `tabindex` attribute ends stuck at `-1`; all other
elements are untouched. -/
theorem makeUntabbable_roundtrip_characterization (c : List Elem) :
    makeUntabbable (makeUntabbable c true) false =
      c.map (fun el =>
        if matchesNonTabindexSelector el then setAttribute el "tabindex" "0"
        else if matchesFocusableSelector el then setAttribute el "tabindex" "-1"
        else el) := by
  unfold makeUntabbable
  rw [List.map_map]
  induction c with
  | nil => rfl
  | cons el rest ih =>
    rw [List.map_cons, List.map_cons, ih]
    exact congrArg₂ List.cons (untabbable_roundtrip_step el) rfl

/-- Claim C5, witness: the characterization evaluated on a concrete
container holding one button. -/
theorem makeUntabbable_roundtrip_characterization_witness :
    makeUntabbable (makeUntabbable [bareButton] true) false =
      [setAttribute bareButton "tabindex" "0"] := by
  have h := makeUntabbable_roundtrip_characterization [bareButton]
  simpa using h

/-- Claim C6, counterexample: `isMultiselectable` reads
`t.getAttribute(...)` without optional chaining, so on a null/undefined
node it raises a TypeError instead of returning false — the claimed
totality fails for this one reader. -/
theorem isMultiselectable_null_throws :
    isMultiselectable none = Except.error () :=
  rfl

/-- Claim C6, amended: every classifier returns false on a null node; every
reader except `isMultiselectable` returns `Except.ok false` on a null node;
and on an actual element every classifier and reader (including
`isMultiselectable`) succeeds without raising. Only `isMultiselectable`
applied to a null node raises. -/
theorem classifiers_readers_total :
    (canDisable none = false ∧ canSelect none = false ∧
     canCheck none = false ∧ canExpand none = false) ∧
    (isDisabled none = Except.ok false ∧ isSelected none = Except.ok false ∧
     isChecked none = Except.ok false ∧ isExpanded none = Except.ok false ∧
     isMixed none = Except.ok false ∧
     isCheckedOrSelected none = Except.ok false) ∧
    (∀ e : Elem,
      (isDisabled (some e)).isOk = true ∧
      (isSelected (some e)).isOk = true ∧
      (isChecked (some e)).isOk = true ∧
      (isExpanded (some e)).isOk = true ∧
      (isMixed (some e)).isOk = true ∧
      (isCheckedOrSelected (some e)).isOk = true ∧
      (isMultiselectable (some e)).isOk = true) := by
  refine ⟨⟨rfl, rfl, rfl, rfl⟩, ⟨rfl, rfl, rfl, rfl, rfl, rfl⟩, fun e => ?_⟩
  have hd : (isDisabled (some e)).isOk = true := by
    cases h1 : canDisable (some e) <;>
      cases h2 : truthyAttr (getAttribute e "aria-disabled") <;>
        simp [isDisabled, h1, h2, Except.isOk, Except.toBool]
  have hs : (isSelected (some e)).isOk = true := by
    cases h1 : canSelect (some e) <;>
      cases h2 : truthyAttr (getAttribute e "aria-selected") <;>
        simp [isSelected, h1, h2, Except.isOk, Except.toBool]
  have hc : (isChecked (some e)).isOk = true := by
    cases h1 : canCheck (some e) <;>
      cases h2 : truthyAttr (getAttribute e "aria-checked") <;>
        simp [isChecked, h1, h2, Except.isOk, Except.toBool]
  have he : (isExpanded (some e)).isOk = true := by
    cases h1 : canExpand (some e) <;>
      simp [isExpanded, h1, Except.isOk, Except.toBool]
  have hm : (isMixed (some e)).isOk = true := by
    cases h1 : canCheck (some e) <;>
      simp [isMixed, h1, Except.isOk, Except.toBool]
  have hcs : (isCheckedOrSelected (some e)).isOk = true := by
    unfold isCheckedOrSelected
    obtain ⟨b, hb⟩ : ∃ b, isChecked (some e) = Except.ok b := by
      cases hx : isChecked (some e) with
      | error u => rw [hx] at hc; cases hc
      | ok b => exact ⟨b, rfl⟩
    rw [hb]
    cases b with
    | false => simpa [Except.bind] using hs
    | true => rfl
  exact ⟨hd, hs, hc, he, hm, hcs, rfl⟩

/-- Claim C6, witness: the totality statement evaluated at a concrete
element. -/
theorem classifiers_readers_total_witness :
    (isMultiselectable (some divPlain)).isOk = true :=
  (classifiers_readers_total.2.2 divPlain).2.2.2.2.2.2

/-- Claim C7: whenever the capability predicate of an axis is false on an
element, the reader of that axis returns `Except.ok false` and the writer
of that axis returns without touching the element (and without touching
the shared href cell or raising). -/
theorem unsupported_axis_frame (t : Elem) (v : Bool) (cell : Option String) :
    (canDisable (some t) = false →
      isDisabled (some t) = Except.ok false ∧ disable t v cell = (t, cell)) ∧
    (canSelect (some t) = false →
      isSelected (some t) = Except.ok false ∧ select t v = t) ∧
    (canCheck (some t) = false →
      isChecked (some t) = Except.ok false ∧
      isMixed (some t) = Except.ok false ∧ check t v = t) ∧
    (canExpand (some t) = false →
      isExpanded (some t) = Except.ok false ∧
      expand t v = Except.ok (t, false)) := by
  refine ⟨fun h => ⟨?_, ?_⟩, fun h => ⟨?_, ?_⟩, fun h => ⟨?_, ?_, ?_⟩,
    fun h => ⟨?_, ?_⟩⟩
  · simp [isDisabled, h]
  · simp [disable, h]
  · simp [isSelected, h]
  · simp [select, h]
  · simp [isChecked, h]
  · simp [isMixed, h]
  · simp [check, h]
  · simp [isExpanded, h]
  · simp [expand, h]

/-- Claim C7, witness: a plain div supports none of the four axes; all
readers answer `Except.ok false` and all writers leave it unchanged. -/
theorem unsupported_axis_frame_witness :
    (isDisabled (some divPlain) = Except.ok false ∧
      disable divPlain true none = (divPlain, none)) ∧
    (isSelected (some divPlain) = Except.ok false ∧
      select divPlain true = divPlain) ∧
    (isChecked (some divPlain) = Except.ok false ∧
      isMixed (some divPlain) = Except.ok false ∧
      check divPlain true = divPlain) ∧
    (isExpanded (some divPlain) = Except.ok false ∧
      expand divPlain true = Except.ok (divPlain, false)) := by
  have h := unsupported_axis_frame divPlain true none
  exact ⟨h.1 rfl, h.2.1 rfl, h.2.2.1 rfl, h.2.2.2 rfl⟩

/-- Claim C8, counterexample: `emptyAriaChecked` is a checkable input that
carries the `aria-checked` attribute with the empty-string value while its
native checked flag is set. The claim requires `isChecked` to return
false (the attribute is carried and its value is not the string true) and
to fall back to the native flag only when the attribute is absent; the
code instead treats the falsy empty string as absence and returns the
native flag, true. -/
theorem isChecked_empty_attribute_counterexample :
    canCheck (some emptyAriaChecked) = true ∧
    hasAttribute emptyAriaChecked "aria-checked" = true ∧
    getAttribute emptyAriaChecked "aria-checked" ≠ some "true" ∧
    emptyAriaChecked.checked = true ∧
    isChecked (some emptyAriaChecked) = Except.ok true := by
  refine ⟨rfl, rfl, ?_, rfl, rfl⟩
  decide

/-- Claim C8, amended: for a checkable node, a NON-EMPTY `aria-checked`
attribute value decides `isChecked` (true exactly when the value is the
string true, the native flag ignored); when the attribute is absent or is
the empty string, `isChecked` returns the native checked flag. -/
theorem isChecked_truthy_aria_wins (e : Elem) (h : canCheck (some e) = true) :
    (∀ s, getAttribute e "aria-checked" = some s → s ≠ "" →
      isChecked (some e) = Except.ok (s == "true")) ∧
    (getAttribute e "aria-checked" = none ∨
        getAttribute e "aria-checked" = some "" →
      isChecked (some e) = Except.ok e.checked) := by
  constructor
  · intro s hs hne
    have ht : truthyAttr (some s) = true := by
      simpa [truthyAttr] using hne
    simp [isChecked, h, hs, ht]
  · intro hor
    have ht : truthyAttr (getAttribute e "aria-checked") = false := by
      rcases hor with h0 | h0 <;> simp [truthyAttr, h0]
    simp [isChecked, h, ht]

/-- Claim C8, witness: a checkable input with `aria-checked` set to the
string false and native checked flag true reports not checked — the
non-empty aria value wins over the native flag. -/
theorem isChecked_truthy_aria_wins_witness :
    ariaFalseNativeTrue.checked = true ∧
    isChecked (some ariaFalseNativeTrue) = Except.ok false := by
  refine ⟨rfl, ?_⟩
  have h := (isChecked_truthy_aria_wins ariaFalseNativeTrue rfl).1 "false" rfl
    (by decide)
  simpa using h

/-- Claim C9: when the axis-specific aria attribute is present but set to
the empty string, the readers treat it as absent (string truthiness) and
return the native flag. -/
theorem empty_aria_attribute_falls_back (e : Elem) :
    (canCheck (some e) = true → getAttribute e "aria-checked" = some "" →
      isChecked (some e) = Except.ok e.checked) ∧
    (canSelect (some e) = true → getAttribute e "aria-selected" = some "" →
      isSelected (some e) = Except.ok e.selected) ∧
    (canDisable (some e) = true → getAttribute e "aria-disabled" = some "" →
      isDisabled (some e) = Except.ok e.disabled) := by
  refine ⟨fun h ha => ?_, fun h ha => ?_, fun h ha => ?_⟩
  · simp [isChecked, truthyAttr, h, ha]
  · simp [isSelected, truthyAttr, h, ha]
  · simp [isDisabled, truthyAttr, h, ha]

/-- Claim C9, witness: an option with role `option`, all three aria
attributes empty and all three native flags set reports true on all three
readers, from the native flags. -/
theorem empty_aria_attribute_falls_back_witness :
    isChecked (some emptyAriaOption) = Except.ok true ∧
    isSelected (some emptyAriaOption) = Except.ok true ∧
    isDisabled (some emptyAriaOption) = Except.ok true := by
  have h := empty_aria_attribute_falls_back emptyAriaOption
  exact ⟨h.1 rfl rfl, h.2.1 rfl rfl, h.2.2 rfl rfl⟩

/-- The labelledby loop raises as soon as any listed id resolves to no
element. -/
theorem collectLabels_error (doc : List Elem) (ids : List String) (i : String)
    (hmem : i ∈ ids) (hnone : getElementById doc i = none) :
    collectLabels doc ids = Except.error () := by
  induction ids with
  | nil => cases hmem
  | cons a rest ih =>
    rcases List.mem_cons.mp hmem with h | h
    · subst h
      simp [collectLabels, hnone]
    · cases hga : getElementById doc a with
      | none => simp [collectLabels, hga]
      | some el => simp [collectLabels, hga, ih h, Except.map]

/-- Claim C10: when the `aria-labelledby` attribute is present and some
listed identifier resolves to no document element, `getLabelText` raises
(reading `innerText` of null) instead of skipping the identifier or
returning the no-label sentinel. -/
theorem getLabelText_unresolved_id_throws (doc : List Elem) (t : Elem)
    (ids : List String) (hids : getLabelledby t = some ids)
    (i : String) (hmem : i ∈ ids) (hnone : getElementById doc i = none) :
    getLabelText doc t = Except.error () := by
  have hcl := collectLabels_error doc ids i hmem hnone
  simp [getLabelText, hids, hcl, Except.map]

/-- Claim C10, witness: an element labelled by the unresolvable id `ghost`
in the empty document makes `getLabelText` raise. -/
theorem getLabelText_unresolved_id_throws_witness :
    getLabelText [] ghostLabelled = Except.error () :=
  getLabelText_unresolved_id_throws [] ghostLabelled ["ghost"] rfl "ghost"
    (List.mem_singleton.mpr rfl) rfl

end Aria
